import Mathlib

/- Shallow embedding of src/app.py, a Flask trip-mileage recorder.
   Modelled here: the trip ledger file helpers (_read_trips, _write_trips),
   the POST branch of the /mileage route (distance resolution, reimbursement
   computation, trip construction, ledger append) and the POST branch of the
   /costs route (cost amendment by created_at key).

   Modelling conventions:
   - Python floats are modelled as exact rationals (the decimal arithmetic of
     the claims is exact at two decimal places, so no binary-float artefact is
     load-bearing for any claim settled here).
   - Python round(x, 2) is modelled as exact rounding of a rational to two
     decimal places with ties going to the even hundredth, matching the
     round-half-even convention of Python round.
   - Form values that the code parses with safe_float are modelled as
     Option Rat: none stands for a missing or unparseable field, for which
     safe_float yields the default 0.0.
   - The external geocode+route capability (driving_distance_miles_ors) is an
     injected parameter of type String -> String -> Option Rat together with a
     Bool that records whether ORS_API_KEY is configured; none models the
     no-match outcome for which the function returns None. -/

namespace MileageCalc

/-- A stop entry as built at app.py lines 140-145: stripped address and
datetime strings. -/
structure Stop where
  address : String
  datetime : String
  deriving DecidableEq, Repr

/-- A per-leg distance record as appended at app.py line 165:
the dict with keys from, to, miles. The Python keys "from" and "to" are Lean
keywords, hence the field names from_ and to_. -/
structure Leg where
  from_ : String
  to_ : String
  miles : ℚ
  deriving DecidableEq, Repr

/-- A citation record as appended at app.py lines 248-254. -/
structure Citation where
  state : String
  county : String
  department : String
  citing_officer : String
  ticket_number : String
  deriving DecidableEq, Repr

/-- The costs sub-record of a trip, app.py lines 203-208. -/
structure Costs where
  gas : ℚ
  food : ℚ
  tolls : ℚ
  tickets : List Citation
  deriving DecidableEq, Repr

/-- A trip record exactly as constructed at app.py lines 189-209. -/
structure Trip where
  created_at : String
  trip_type : String
  start_address : String
  end_address : String
  start_datetime : String
  arrival_datetime : String
  stops : List Stop
  irs_business_rate : ℚ
  one_way_miles : ℚ
  total_miles : ℚ
  reimbursement : ℚ
  distance_source : String
  distance_legs : List Leg
  costs : Costs
  deriving DecidableEq, Repr

/-- Python str.strip() with no argument: remove whitespace from both ends.
Implemented structurally over the character list so that it reduces inside
the kernel. -/
def pyStrip (s : String) : String :=
  String.mk
    (((s.data.dropWhile Char.isWhitespace).reverse.dropWhile
        Char.isWhitespace).reverse)

/-- safe_float (app.py lines 111-115): float(val) with default 0.0 on
TypeError or ValueError. A missing or unparseable form value is modelled as
none. -/
def safe_float : Option ℚ → ℚ
  | none => 0
  | some x => x

/-- Python round(x, 2) modelled exactly on rationals: multiply by 100, round
to the nearest integer with ties to the even integer, divide by 100. -/
def round2 (q : ℚ) : ℚ :=
  let x : ℚ := q * 100
  let f : ℤ := ⌊x⌋
  let n : ℤ :=
    if x - f < 1 / 2 then f
    else if 1 / 2 < x - f then f + 1
    else if f % 2 = 0 then f else f + 1
  (n : ℚ) / 100

/-- The error that escapes _read_trips: read_text(encoding="utf-8") raises
UnicodeDecodeError when the stored bytes are not valid UTF-8, and the
except clause at app.py line 34 catches only json.JSONDecodeError, so the
decode error propagates to the caller. -/
inductive ReadError where
  | unicodeDecodeError
  deriving DecidableEq, Repr

/-- _read_trips (app.py lines 29-35) at the byte level. The backing store is
none when the trips file is absent and some bs when it holds the bytes bs.
Reading goes through two stages: read_text(encoding="utf-8") is the
injected decode (none standing for UnicodeDecodeError) and json.loads with
the JSON schema is the injected parse (none standing for
json.JSONDecodeError). An absent file yields the empty list; a parse
failure is caught and yields the empty list; a decode failure is NOT
caught (the except clause names only json.JSONDecodeError) and is raised
to the caller. -/
def readTrips (decode : List ℕ → Option String)
    (parse : String → Option (List Trip)) (file : Option (List ℕ)) :
    Except ReadError (List Trip) :=
  match file with
  | none => Except.ok []
  | some bs =>
    match decode bs with
    | none => Except.error ReadError.unicodeDecodeError
    | some s =>
      match parse s with
      | none => Except.ok []
      | some ts => Except.ok ts

/-- A concrete instance of the decode stage, used by the C6 input: a byte
list that is pure ASCII decodes to the string of those characters (on the
ASCII plane UTF-8 and ASCII agree), and a list holding a byte of 128 or
above fails. It agrees with the Python decoder on the inputs it is applied
to below: the byte 255 is valid in no position of a UTF-8 text, so Python
raises UnicodeDecodeError on it. -/
def asciiDecode (bs : List ℕ) : Option String :=
  if bs.all fun b => b < 128 then
    some (String.mk (bs.map fun b => Char.ofNat b))
  else none

/-- The raw POST form of the /mileage route. stop_address i and
stop_datetime i are the raw values of the fields stop_i_address and
stop_i_datetime; missing fields are the empty string, as with
request.form.get(key, ""). -/
structure MileageForm where
  trip_type : String
  start_address : String
  end_address : String
  start_datetime : String
  arrival_datetime : String
  stop_address : ℕ → String
  stop_datetime : ℕ → String
  manual_one_way_miles : Option ℚ
  manual_stop_miles : Option ℚ

/-- The stops list built at app.py lines 140-145: for i in range(1, 6), strip
both fields and keep the entry when either is non-empty. -/
def readStops (f : MileageForm) : List Stop :=
  ([1, 2, 3, 4, 5] : List ℕ).filterMap fun i =>
    let addr := pyStrip (f.stop_address i)
    let dt := pyStrip (f.stop_datetime i)
    if addr ≠ "" ∨ dt ≠ "" then some ⟨addr, dt⟩ else none

/-- The waypoint list of app.py line 156: stripped start address, then the
addresses of the stops whose address is non-empty, then the stripped end
address. -/
def waypoints (f : MileageForm) : List String :=
  [pyStrip f.start_address] ++
    ((readStops f).filter fun s => s.address ≠ "").map Stop.address ++
    [pyStrip f.end_address]

/-- The leg loop of app.py lines 158-166 over the consecutive waypoint
pairs: accumulate a running total and a per-leg detail list; on the first
pair for which the capability returns no distance, stop (break) with ok set
to false, keeping the detail accumulated so far. Returns
(total, detail, ok). -/
def runLegs (dist : String → String → Option ℚ) :
    List (String × String) → ℚ → List Leg → ℚ × List Leg × Bool
  | [], total, detail => (total, detail, true)
  | (a, b) :: rest, total, detail =>
    match dist a b with
    | none => (total, detail, false)
    | some d => runLegs dist rest (total + d) (detail ++ [⟨a, b, d⟩])

/-- app.py lines 152-168: the pair (computed_one_way, computed_detail). The
leg loop runs only when ORS_API_KEY is configured and both stripped
addresses are non-empty and there are at least two waypoints; computed_one_way
is the leg total only when every leg succeeded, while computed_detail is
whatever the loop accumulated. -/
def computedOf (dist : String → String → Option ℚ) (orsKey : Bool)
    (f : MileageForm) : Option ℚ × List Leg :=
  if orsKey = true ∧ pyStrip f.start_address ≠ "" ∧ pyStrip f.end_address ≠ "" then
    let points := waypoints f
    if 2 ≤ points.length then
      let r := runLegs dist (points.zip points.tail) 0 []
      (if r.2.2 = true then some r.1 else none, r.2.1)
    else (none, [])
  else (none, [])

/-- app.py lines 170-172: the final one-way miles, the computed total when
present, else the manual value, plus the manual extra stop miles. -/
def oneWayOf (dist : String → String → Option ℚ) (orsKey : Bool)
    (f : MileageForm) : ℚ :=
  (computedOf dist orsKey f).1.getD (safe_float f.manual_one_way_miles) +
    safe_float f.manual_stop_miles

/-- The trip dict built at app.py lines 182-209, with created_at injected as
the parameter now (datetime.utcnow().isoformat() + "Z" in the code). -/
def buildTrip (dist : String → String → Option ℚ) (orsKey : Bool) (rate : ℚ)
    (now : String) (f : MileageForm) : Trip :=
  let c := computedOf dist orsKey f
  let one_way_miles := oneWayOf dist orsKey f
  let total_miles :=
    if f.trip_type = "roundtrip" then one_way_miles * 2 else one_way_miles
  { created_at := now
    trip_type := f.trip_type
    start_address := pyStrip f.start_address
    end_address := pyStrip f.end_address
    start_datetime := pyStrip f.start_datetime
    arrival_datetime := pyStrip f.arrival_datetime
    stops := readStops f
    irs_business_rate := rate
    one_way_miles := round2 one_way_miles
    total_miles := round2 total_miles
    reimbursement := round2 (total_miles * rate)
    distance_source :=
      if c.1.isSome = true then "openrouteservice" else "manual"
    distance_legs := c.2
    costs := { gas := 0, food := 0, tolls := 0, tickets := [] } }

/-- Outcome of a POST to /mileage: a rejecting flash-and-redirect, or a
saved trip. -/
inductive Outcome where
  | reject (message : String)
  | save (trip : Trip)
  deriving DecidableEq, Repr

/-- Whether the outcome is a rejection. -/
def Outcome.isReject : Outcome → Bool
  | reject _ => true
  | save _ => false

/-- The saved trip of a (ledger, outcome) pair, when one was saved. -/
def savedOf : List Trip × Outcome → Option Trip
  | (_, Outcome.save t) => some t
  | (_, Outcome.reject _) => none

/-- The POST branch of the /mileage route (app.py lines 130-216): validate
the stripped addresses and the final one-way miles, and either reject
(leaving the ledger untouched) or build the trip and append it to the
ledger read from the file. Returns the persisted ledger and the outcome. -/
def mileage_post (dist : String → String → Option ℚ) (orsKey : Bool)
    (rate : ℚ) (now : String) (f : MileageForm) (ledger : List Trip) :
    List Trip × Outcome :=
  if pyStrip f.start_address = "" ∨ pyStrip f.end_address = "" then
    (ledger, Outcome.reject "Start and End address are required.")
  else if oneWayOf dist orsKey f ≤ 0 then
    (ledger, Outcome.reject
      "Miles must be greater than 0 (enter manual miles or configure ORS_API_KEY).")
  else
    (ledger ++ [buildTrip dist orsKey rate now f],
      Outcome.save (buildTrip dist orsKey rate now f))

/-- The raw POST form of the /costs route (app.py lines 227-237). The three
numeric fields go through safe_float; the five ticket fields are stripped
strings. -/
structure CostsForm where
  created_at : String
  gas : Option ℚ
  food : Option ℚ
  tolls : Option ℚ
  ticket_state : String
  ticket_county : String
  ticket_department : String
  ticket_officer : String
  ticket_number : String

/-- app.py line 247: any([t_state, t_county, t_dept, t_officer, t_number])
on the stripped ticket fields. -/
def anyTicket (f : CostsForm) : Bool :=
  (pyStrip f.ticket_state != "") || (pyStrip f.ticket_county != "") ||
    (pyStrip f.ticket_department != "") || (pyStrip f.ticket_officer != "") ||
    (pyStrip f.ticket_number != "")

/-- The citation record appended at app.py lines 248-254. -/
def mkCitation (f : CostsForm) : Citation :=
  { state := pyStrip f.ticket_state
    county := pyStrip f.ticket_county
    department := pyStrip f.ticket_department
    citing_officer := pyStrip f.ticket_officer
    ticket_number := pyStrip f.ticket_number }

/-- The mutation of one matched trip at app.py lines 242-254: overwrite gas,
food and tolls with the newly supplied values and append one citation when
any ticket field is non-empty. -/
def applyCost (f : CostsForm) (t : Trip) : Trip :=
  { t with
    costs :=
      { gas := safe_float f.gas
        food := safe_float f.food
        tolls := safe_float f.tolls
        tickets :=
          if anyTicket f = true then t.costs.tickets ++ [mkCitation f]
          else t.costs.tickets } }

/-- The scan loop of app.py lines 239-256: walk the list, mutate the first
trip whose created_at equals the submitted key, and stop. Returns the
resulting list and the updated flag. -/
def updateFirst (f : CostsForm) : List Trip → List Trip × Bool
  | [] => ([], false)
  | t :: rest =>
    if t.created_at = f.created_at then (applyCost f t :: rest, true)
    else
      let r := updateFirst f rest
      (t :: r.1, r.2)

/-- The POST branch of the /costs route (app.py lines 226-264): run the scan
and write the collection back only when a match was found (app.py lines
258-262). Returns the persisted file contents (unchanged when no match),
whether a write happened, and the flash message. -/
def costs_post (f : CostsForm) (trips : List Trip) :
    List Trip × Bool × String :=
  let r := updateFirst f trips
  if r.2 = true then (r.1, true, "Costs updated.")
  else (trips, false, "Trip not found.")

/-- A distance capability that knows no route at all. -/
def dist0 : String → String → Option ℚ := fun _ _ => none

/-- A distance capability that resolves only the leg from A to B, with five
miles; every other leg has no match. -/
def dist1 : String → String → Option ℚ :=
  fun a b => if a = "A" ∧ b = "B" then some 5 else none

/-- A distance capability that resolves every leg with five miles. -/
def dist3 : String → String → Option ℚ := fun _ _ => some 5

/-- A submission from A to C with one stop at B, manual miles 7 and no
extra stop miles. -/
def form1 : MileageForm :=
  { trip_type := "one_way"
    start_address := "A"
    end_address := "C"
    start_datetime := ""
    arrival_datetime := ""
    stop_address := fun i => if i = 1 then "B" else ""
    stop_datetime := fun _ => ""
    manual_one_way_miles := some 7
    manual_stop_miles := some 0 }

/-- A round-trip submission from A to B with manual miles 10 and no extra
stop miles. -/
def form2 : MileageForm :=
  { trip_type := "roundtrip"
    start_address := "A"
    end_address := "B"
    start_datetime := ""
    arrival_datetime := ""
    stop_address := fun _ => ""
    stop_datetime := fun _ => ""
    manual_one_way_miles := some 10
    manual_stop_miles := some 0 }

/-- A one-way submission from A to B with manual miles 0, resolved by the
capability. -/
def form3 : MileageForm :=
  { trip_type := "one_way"
    start_address := "A"
    end_address := "B"
    start_datetime := ""
    arrival_datetime := ""
    stop_address := fun _ => ""
    stop_datetime := fun _ => ""
    manual_one_way_miles := some 0
    manual_stop_miles := some 0 }

/-- The submission of property 7 of the spec: manual one-way miles 10, extra
stop miles 1.5, one-way trip. -/
def form7 : MileageForm :=
  { trip_type := "one_way"
    start_address := "A"
    end_address := "B"
    start_datetime := ""
    arrival_datetime := ""
    stop_address := fun _ => ""
    stop_datetime := fun _ => ""
    manual_one_way_miles := some 10
    manual_stop_miles := some (3 / 2) }

/-- A submission with an empty start address. -/
def form9 : MileageForm :=
  { trip_type := "one_way"
    start_address := ""
    end_address := "B"
    start_datetime := ""
    arrival_datetime := ""
    stop_address := fun _ => ""
    stop_datetime := fun _ => ""
    manual_one_way_miles := some 5
    manual_stop_miles := some 0 }

/-- A trip already in the ledger, used by the amendment witnesses. Its rate
and derived fields use whole numbers so that every field is a literal. -/
def trip0 : Trip :=
  { created_at := "2025-01-01T00:00:00Z"
    trip_type := "one_way"
    start_address := "A"
    end_address := "B"
    start_datetime := ""
    arrival_datetime := ""
    stops := []
    irs_business_rate := 1
    one_way_miles := 10
    total_miles := 10
    reimbursement := 10
    distance_source := "manual"
    distance_legs := []
    costs := { gas := 0, food := 0, tolls := 0, tickets := [] } }

/-- A costs amendment addressed to a key present in no trip. -/
def costfX : CostsForm :=
  { created_at := "2024-12-31T00:00:00Z"
    gas := some 3
    food := some 4
    tolls := some 5
    ticket_state := "CA"
    ticket_county := ""
    ticket_department := ""
    ticket_officer := ""
    ticket_number := "111" }

/-- The first amendment of the C5 witness: replaces the costs with 3, 4, 5
and carries one citation. -/
def costf1 : CostsForm :=
  { created_at := "2025-01-01T00:00:00Z"
    gas := some 3
    food := some 4
    tolls := some 5
    ticket_state := "CA"
    ticket_county := "Kern"
    ticket_department := ""
    ticket_officer := ""
    ticket_number := "111" }

/-- The second amendment of the C5 witness: replaces the costs with 6, 7, 8
and carries one citation. -/
def costf2 : CostsForm :=
  { created_at := "2025-01-01T00:00:00Z"
    gas := some 6
    food := some 7
    tolls := some 8
    ticket_state := "NV"
    ticket_county := ""
    ticket_department := ""
    ticket_officer := ""
    ticket_number := "222" }

/-- A submission whose sixth stop slot holds Z, which the create operation
never reads. -/
def form10a : MileageForm :=
  { trip_type := "one_way"
    start_address := "A"
    end_address := "B"
    start_datetime := ""
    arrival_datetime := ""
    stop_address := fun i => if i = 1 then "B" else if i = 6 then "Z" else ""
    stop_datetime := fun _ => ""
    manual_one_way_miles := some 5
    manual_stop_miles := some 0 }

/-- The same submission with an empty sixth stop slot. -/
def form10b : MileageForm :=
  { trip_type := "one_way"
    start_address := "A"
    end_address := "B"
    start_datetime := ""
    arrival_datetime := ""
    stop_address := fun i => if i = 1 then "B" else ""
    stop_datetime := fun _ => ""
    manual_one_way_miles := some 5
    manual_stop_miles := some 0 }

/-- The waypoint list always has at least two entries: it contains the start
and the end address. -/
theorem waypoints_two_le (f : MileageForm) : 2 ≤ (waypoints f).length := by
  simp [waypoints]

/-- When the stripped addresses are non-empty and the final one-way miles are
positive, the /mileage POST takes the accept branch: it appends the built trip
and reports it saved. -/
theorem mileage_post_accept (dist : String → String → Option ℚ)
    (orsKey : Bool) (rate : ℚ) (now : String) (f : MileageForm)
    (ledger : List Trip)
    (hs : pyStrip f.start_address ≠ "") (he : pyStrip f.end_address ≠ "")
    (hpos : 0 < oneWayOf dist orsKey f) :
    mileage_post dist orsKey rate now f ledger =
      (ledger ++ [buildTrip dist orsKey rate now f],
        Outcome.save (buildTrip dist orsKey rate now f)) := by
  unfold mileage_post
  rw [if_neg (by push_neg; exact ⟨hs, he⟩), if_neg (not_le.mpr hpos)]

/-- Conversely, a saved outcome forces the accept branch: the saved trip is
the built trip, the persisted ledger is the input ledger with that trip
appended, both stripped addresses are non-empty and the final one-way miles
are positive. -/
theorem mileage_save_inv (dist : String → String → Option ℚ)
    (orsKey : Bool) (rate : ℚ) (now : String) (f : MileageForm)
    (ledger : List Trip) (t : Trip)
    (hsave : (mileage_post dist orsKey rate now f ledger).2 = Outcome.save t) :
    t = buildTrip dist orsKey rate now f ∧
      mileage_post dist orsKey rate now f ledger =
        (ledger ++ [t], Outcome.save t) ∧
      pyStrip f.start_address ≠ "" ∧ pyStrip f.end_address ≠ "" ∧
      0 < oneWayOf dist orsKey f := by
  unfold mileage_post at hsave ⊢
  by_cases h1 : pyStrip f.start_address = "" ∨ pyStrip f.end_address = ""
  · rw [if_pos h1] at hsave
    exact absurd hsave (by simp)
  · rw [if_neg h1] at hsave
    by_cases h2 : oneWayOf dist orsKey f ≤ 0
    · rw [if_pos h2] at hsave
      exact absurd hsave (by simp)
    · rw [if_neg h2] at hsave
      push_neg at h1
      simp only [Outcome.save.injEq] at hsave
      refine ⟨hsave.symm, ?_, h1.1, h1.2, not_le.mp h2⟩
      rw [if_neg (not_or.mpr ⟨h1.1, h1.2⟩), if_neg h2, hsave]

/-- Projection: the stored one_way_miles of the built trip. -/
theorem buildTrip_one_way (dist : String → String → Option ℚ) (orsKey : Bool)
    (rate : ℚ) (now : String) (f : MileageForm) :
    (buildTrip dist orsKey rate now f).one_way_miles =
      round2 (oneWayOf dist orsKey f) := rfl

/-- Projection: the stored total_miles of the built trip. -/
theorem buildTrip_total (dist : String → String → Option ℚ) (orsKey : Bool)
    (rate : ℚ) (now : String) (f : MileageForm) :
    (buildTrip dist orsKey rate now f).total_miles =
      round2 (if f.trip_type = "roundtrip" then oneWayOf dist orsKey f * 2
        else oneWayOf dist orsKey f) := rfl

/-- Projection: the stored reimbursement of the built trip. -/
theorem buildTrip_reimb (dist : String → String → Option ℚ) (orsKey : Bool)
    (rate : ℚ) (now : String) (f : MileageForm) :
    (buildTrip dist orsKey rate now f).reimbursement =
      round2 ((if f.trip_type = "roundtrip" then oneWayOf dist orsKey f * 2
        else oneWayOf dist orsKey f) * rate) := rfl

/-- Projection: the stored distance_source of the built trip. -/
theorem buildTrip_source (dist : String → String → Option ℚ) (orsKey : Bool)
    (rate : ℚ) (now : String) (f : MileageForm) :
    (buildTrip dist orsKey rate now f).distance_source =
      (if (computedOf dist orsKey f).1.isSome = true then "openrouteservice"
        else "manual") := rfl

/-- Projection: the stored distance_legs of the built trip. -/
theorem buildTrip_legs (dist : String → String → Option ℚ) (orsKey : Bool)
    (rate : ℚ) (now : String) (f : MileageForm) :
    (buildTrip dist orsKey rate now f).distance_legs =
      (computedOf dist orsKey f).2 := rfl

/-- When some leg fails, computed_one_way is None while computed_detail keeps
the legs accumulated before the failure. -/
theorem computedOf_fail (dist : String → String → Option ℚ) (f : MileageForm)
    (hs : pyStrip f.start_address ≠ "") (he : pyStrip f.end_address ≠ "")
    (hfail :
      (runLegs dist ((waypoints f).zip (waypoints f).tail) 0 []).2.2 = false) :
    computedOf dist true f =
      (none, (runLegs dist ((waypoints f).zip (waypoints f).tail) 0 []).2.1) := by
  unfold computedOf
  rw [if_pos ⟨rfl, hs, he⟩, if_pos (waypoints_two_le f)]
  simp [hfail]

/-- When every leg succeeds, computed_one_way is the accumulated total. -/
theorem computedOf_ok (dist : String → String → Option ℚ) (f : MileageForm)
    (hs : pyStrip f.start_address ≠ "") (he : pyStrip f.end_address ≠ "")
    (hok :
      (runLegs dist ((waypoints f).zip (waypoints f).tail) 0 []).2.2 = true) :
    computedOf dist true f =
      (some (runLegs dist ((waypoints f).zip (waypoints f).tail) 0 []).1,
        (runLegs dist ((waypoints f).zip (waypoints f).tail) 0 []).2.1) := by
  unfold computedOf
  rw [if_pos ⟨rfl, hs, he⟩, if_pos (waypoints_two_le f)]
  simp [hok]

/-- The scan of the costs loop leaves a list with no matching trip
unchanged and reports no update. -/
theorem updateFirst_no_match (f : CostsForm) (trips : List Trip)
    (h : ∀ t ∈ trips, t.created_at ≠ f.created_at) :
    updateFirst f trips = (trips, false) := by
  induction trips with
  | nil => rfl
  | cons t rest ih =>
    have ht : t.created_at ≠ f.created_at := h t (by simp)
    simp only [updateFirst, if_neg ht,
      ih fun u hu => h u (List.mem_cons_of_mem t hu)]

/-- The scan of the costs loop rewrites exactly the first matching trip and
leaves every other record in place. -/
theorem updateFirst_found (f : CostsForm) (pre post : List Trip) (t : Trip)
    (hpre : ∀ u ∈ pre, u.created_at ≠ f.created_at)
    (ht : t.created_at = f.created_at) :
    updateFirst f (pre ++ t :: post) = (pre ++ applyCost f t :: post, true) := by
  induction pre with
  | nil => simp [updateFirst, ht]
  | cons u rest ih =>
    have hu : u.created_at ≠ f.created_at := hpre u (by simp)
    simp only [List.cons_append, updateFirst, if_neg hu, List.append_eq,
      ih fun v hv => hpre v (List.mem_cons_of_mem u hv)]

/-- pyStrip fixes the empty string. -/
theorem pyStrip_lit_empty : pyStrip "" = "" := by decide

/-- pyStrip fixes the literal A. -/
theorem pyStrip_lit_A : pyStrip "A" = "A" := by decide

/-- pyStrip fixes the literal B. -/
theorem pyStrip_lit_B : pyStrip "B" = "B" := by decide

/-- pyStrip fixes the literal C. -/
theorem pyStrip_lit_C : pyStrip "C" = "C" := by decide

/-- The evaluated waypoint list of form1. -/
theorem waypoints_form1 : waypoints form1 = ["A", "B", "C"] := by decide

/-- The evaluated waypoint pairs of form1. -/
theorem zip_form1 :
    (waypoints form1).zip (waypoints form1).tail = [("A", "B"), ("B", "C")] := by
  decide

/-- The evaluated waypoint list of form3. -/
theorem waypoints_form3 : waypoints form3 = ["A", "B"] := by decide

/-- The evaluated waypoint pairs of form3. -/
theorem zip_form3 :
    (waypoints form3).zip (waypoints form3).tail = [("A", "B")] := by decide

/-- The evaluated waypoint pairs of form7. -/
theorem zip_form7 :
    (waypoints form7).zip (waypoints form7).tail = [("A", "B")] := by decide

/-- The final one-way miles of form1 against dist1: the leg from B to C
fails, so the manual 7 plus extra 0 stands. -/
theorem oneWayOf_form1 : oneWayOf dist1 true form1 = 7 := by
  unfold oneWayOf
  rw [computedOf_fail dist1 form1 (by decide) (by decide) (by decide)]
  simp [safe_float, form1]

/-- The final one-way miles of form2 with no capability configured: the
manual 10 plus extra 0. -/
theorem oneWayOf_form2 : oneWayOf dist0 false form2 = 10 := by
  simp [oneWayOf, computedOf, safe_float, form2]

/-- The final one-way miles of form3 against dist3: the single resolved leg
of 5 miles plus extra 0. -/
theorem oneWayOf_form3 : oneWayOf dist3 true form3 = 5 := by
  unfold oneWayOf
  rw [computedOf_ok dist3 form3 (by decide) (by decide) (by decide), zip_form3]
  simp [runLegs, dist3, safe_float, form3]

/-- The final one-way miles of form7 against a capability resolving
nothing: manual 10 plus extra 1.5. -/
theorem oneWayOf_form7 : oneWayOf dist0 true form7 = 23 / 2 := by
  unfold oneWayOf
  rw [computedOf_fail dist0 form7 (by decide) (by decide) (by decide)]
  norm_num [safe_float, form7]

/-- Claim C2: for every accepted trip submission with trip_type round_trip
(form token "roundtrip"), the stored total_miles is 2 times the one-way
miles and the stored reimbursement is total_miles times rate, each rounded
to 2 decimal places exactly once at persistence; for trip_type one_way the
stored total_miles equals the stored one_way_miles. -/
theorem claim_C2 (dist : String → String → Option ℚ) (orsKey : Bool)
    (rate : ℚ) (now : String) (f : MileageForm) (ledger : List Trip)
    (t : Trip)
    (hsave : (mileage_post dist orsKey rate now f ledger).2 = Outcome.save t) :
    t.one_way_miles = round2 (oneWayOf dist orsKey f) ∧
    (f.trip_type = "roundtrip" →
      t.total_miles = round2 (2 * oneWayOf dist orsKey f) ∧
      t.reimbursement = round2 (2 * oneWayOf dist orsKey f * rate)) ∧
    (f.trip_type = "one_way" → t.total_miles = t.one_way_miles) := by
  obtain ⟨ht, -⟩ := mileage_save_inv dist orsKey rate now f ledger t hsave
  subst ht
  refine ⟨buildTrip_one_way dist orsKey rate now f, fun hr => ⟨?_, ?_⟩,
    fun ho => ?_⟩
  · rw [buildTrip_total, if_pos hr, mul_comm]
  · rw [buildTrip_reimb, if_pos hr]
    congr 1
    ring
  · have hne : ¬f.trip_type = "roundtrip" := by
      rw [ho]; decide
    rw [buildTrip_total, if_neg hne, buildTrip_one_way]

/-- Claim C2 witness: the round-trip submission form2 evaluated concretely. -/
theorem claim_C2_witness :
    (buildTrip dist0 false (7 / 10) "t0" form2).one_way_miles =
      round2 (oneWayOf dist0 false form2) ∧
    (form2.trip_type = "roundtrip" →
      (buildTrip dist0 false (7 / 10) "t0" form2).total_miles =
        round2 (2 * oneWayOf dist0 false form2) ∧
      (buildTrip dist0 false (7 / 10) "t0" form2).reimbursement =
        round2 (2 * oneWayOf dist0 false form2 * (7 / 10))) ∧
    (form2.trip_type = "one_way" →
      (buildTrip dist0 false (7 / 10) "t0" form2).total_miles =
        (buildTrip dist0 false (7 / 10) "t0" form2).one_way_miles) :=
  claim_C2 dist0 false (7 / 10) "t0" form2 []
    (buildTrip dist0 false (7 / 10) "t0" form2)
    (congrArg Prod.snd
      (mileage_post_accept dist0 false (7 / 10) "t0" form2 [] (by decide)
        (by decide) (by simp [oneWayOf, computedOf, safe_float, form2])))

/-- Claim C6 counterexample: a present backing store whose bytes do not
decode as UTF-8 (the single byte 255) makes _read_trips raise
UnicodeDecodeError to the caller instead of returning a collection: the
claim that load() returns without raising for every state of the backing
store is false at this state. -/
theorem claim_C6_counterexample :
    readTrips asciiDecode (fun _ => none) (some [255]) =
      Except.error ReadError.unicodeDecodeError ∧
    (Except.error ReadError.unicodeDecodeError :
        Except ReadError (List Trip)) ≠ Except.ok [] :=
  ⟨rfl, fun h => Except.noConfusion h⟩

/-- Claim C6 amended: an absent backing store loads as the empty
collection, and a present store that decodes as UTF-8 but fails to parse
as JSON also loads as the empty collection; but a present store whose
bytes fail to decode as UTF-8 raises the decode error to the caller, since
only json.JSONDecodeError is caught. -/
theorem claim_C6_amended (decode : List ℕ → Option String)
    (parse : String → Option (List Trip)) (bad good : List ℕ) (s : String)
    (hgood : decode good = some s) (hparse : parse s = none)
    (hbad : decode bad = none) :
    readTrips decode parse none = Except.ok [] ∧
    readTrips decode parse (some good) = Except.ok [] ∧
    readTrips decode parse (some bad) =
      Except.error ReadError.unicodeDecodeError := by
  refine ⟨rfl, ?_, ?_⟩
  · simp [readTrips, hgood, hparse]
  · simp [readTrips, hbad]

/-- Claim C6 amended witness: the byte 72 is the ASCII text H, which fails
to parse as JSON and loads as the empty collection; the byte 255 fails to
decode and the error is raised. -/
theorem claim_C6_amended_witness :
    readTrips asciiDecode (fun _ => none) none = Except.ok [] ∧
    readTrips asciiDecode (fun _ => none) (some [72]) = Except.ok [] ∧
    readTrips asciiDecode (fun _ => none) (some [255]) =
      Except.error ReadError.unicodeDecodeError :=
  claim_C6_amended asciiDecode (fun _ => none) [255] [72] "H" (by decide)
    rfl (by decide)

/-- Claim C8: when a submission is accepted, the persisted ledger is the old
ledger with the new trip appended at the end: every previously stored trip
is kept unchanged at its position. -/
theorem claim_C8 (dist : String → String → Option ℚ) (orsKey : Bool)
    (rate : ℚ) (now : String) (f : MileageForm) (ledger : List Trip)
    (t : Trip)
    (hsave : (mileage_post dist orsKey rate now f ledger).2 = Outcome.save t) :
    (mileage_post dist orsKey rate now f ledger).1 = ledger ++ [t] ∧
    (mileage_post dist orsKey rate now f ledger).1.take ledger.length =
      ledger ∧
    (mileage_post dist orsKey rate now f ledger).1.getLast? = some t := by
  obtain ⟨-, heq, -⟩ := mileage_save_inv dist orsKey rate now f ledger t hsave
  rw [heq]
  exact ⟨rfl, List.take_left ledger [t], by simp⟩

/-- Claim C8 witness: appending the trip built from form2 to a one-trip
ledger. -/
theorem claim_C8_witness :
    (mileage_post dist0 false 1 "t1" form2 [trip0]).1 =
      [trip0] ++ [buildTrip dist0 false 1 "t1" form2] ∧
    (mileage_post dist0 false 1 "t1" form2 [trip0]).1.take
      ([trip0] : List Trip).length = [trip0] ∧
    (mileage_post dist0 false 1 "t1" form2 [trip0]).1.getLast? =
      some (buildTrip dist0 false 1 "t1" form2) :=
  claim_C8 dist0 false 1 "t1" form2 [trip0]
    (buildTrip dist0 false 1 "t1" form2)
    (congrArg Prod.snd
      (mileage_post_accept dist0 false 1 "t1" form2 [trip0] (by decide)
        (by decide) (by simp [oneWayOf, computedOf, safe_float, form2])))

/-- Claim C9: a submission with an empty stripped start or end address, or a
final one-way distance that is not strictly positive, is rejected and the
ledger is left unchanged. -/
theorem claim_C9 (dist : String → String → Option ℚ) (orsKey : Bool)
    (rate : ℚ) (now : String) (f : MileageForm) (ledger : List Trip)
    (h : pyStrip f.start_address = "" ∨ pyStrip f.end_address = "" ∨
      oneWayOf dist orsKey f ≤ 0) :
    (mileage_post dist orsKey rate now f ledger).1 = ledger ∧
    ((mileage_post dist orsKey rate now f ledger).2).isReject = true := by
  unfold mileage_post
  rcases h with h | h | h
  · rw [if_pos (Or.inl h)]
    exact ⟨rfl, rfl⟩
  · rw [if_pos (Or.inr h)]
    exact ⟨rfl, rfl⟩
  · by_cases haddr : pyStrip f.start_address = "" ∨ pyStrip f.end_address = ""
    · rw [if_pos haddr]
      exact ⟨rfl, rfl⟩
    · rw [if_neg haddr, if_pos h]
      exact ⟨rfl, rfl⟩

/-- Claim C9 witness: the empty start address of form9 is rejected over a
non-empty ledger. -/
theorem claim_C9_witness :
    (mileage_post dist0 false 1 "t0" form9 [trip0]).1 = [trip0] ∧
    ((mileage_post dist0 false 1 "t0" form9 [trip0]).2).isReject = true :=
  claim_C9 dist0 false 1 "t0" form9 [trip0] (Or.inl (by decide))

/-- Claim C4: an amendment whose created_at key matches no trip leaves the
persisted ledger unchanged, performs no write (the flag is false) and
reports not found. -/
theorem claim_C4 (f : CostsForm) (trips : List Trip)
    (h : ∀ t ∈ trips, t.created_at ≠ f.created_at) :
    costs_post f trips = (trips, false, "Trip not found.") := by
  unfold costs_post
  rw [updateFirst_no_match f trips h]
  exact rfl

/-- Claim C4 witness: amending a one-trip ledger with a key that matches
nothing. -/
theorem claim_C4_witness :
    costs_post costfX [trip0] = ([trip0], false, "Trip not found.") :=
  claim_C4 costfX [trip0] (by decide)

/-- Claim C5: two successive amendments addressed to the same trip (the
first match for their shared key) replace gas, food and tolls each time
and, since each carries a citation, append one citation record each time:
the final cost fields are those of the second amendment and the tickets
sequence has grown by exactly the two citations, in order. -/
theorem claim_C5 (pre post : List Trip) (t : Trip) (f1 f2 : CostsForm)
    (hpre : ∀ u ∈ pre, u.created_at ≠ f1.created_at)
    (ht : t.created_at = f1.created_at)
    (hk : f2.created_at = f1.created_at)
    (hc1 : anyTicket f1 = true) (hc2 : anyTicket f2 = true) :
    (costs_post f1 (pre ++ t :: post)).1 = pre ++ applyCost f1 t :: post ∧
    (costs_post f2 (pre ++ applyCost f1 t :: post)).1 =
      pre ++ applyCost f2 (applyCost f1 t) :: post ∧
    (applyCost f1 t).costs.gas = safe_float f1.gas ∧
    (applyCost f1 t).costs.food = safe_float f1.food ∧
    (applyCost f1 t).costs.tolls = safe_float f1.tolls ∧
    (applyCost f1 t).costs.tickets = t.costs.tickets ++ [mkCitation f1] ∧
    (applyCost f2 (applyCost f1 t)).costs.gas = safe_float f2.gas ∧
    (applyCost f2 (applyCost f1 t)).costs.food = safe_float f2.food ∧
    (applyCost f2 (applyCost f1 t)).costs.tolls = safe_float f2.tolls ∧
    (applyCost f2 (applyCost f1 t)).costs.tickets =
      t.costs.tickets ++ [mkCitation f1, mkCitation f2] ∧
    (applyCost f2 (applyCost f1 t)).costs.tickets.length =
      t.costs.tickets.length + 2 := by
  have hpre2 : ∀ u ∈ pre, u.created_at ≠ f2.created_at := by
    intro u hu
    rw [hk]
    exact hpre u hu
  have ht2 : (applyCost f1 t).created_at = f2.created_at := by
    rw [hk]
    exact ht
  have h1 : (costs_post f1 (pre ++ t :: post)).1 =
      pre ++ applyCost f1 t :: post := by
    unfold costs_post
    rw [updateFirst_found f1 pre post t hpre ht]
    exact rfl
  have h2 : (costs_post f2 (pre ++ applyCost f1 t :: post)).1 =
      pre ++ applyCost f2 (applyCost f1 t) :: post := by
    unfold costs_post
    rw [updateFirst_found f2 pre post (applyCost f1 t) hpre2 ht2]
    exact rfl
  refine ⟨h1, h2, rfl, rfl, rfl, ?_, rfl, rfl, rfl, ?_, ?_⟩
  · simp [applyCost, hc1]
  · simp [applyCost, hc1, hc2]
  · simp [applyCost, hc1, hc2]

/-- Claim C5 witness: trip0 amended by costf1 then costf2. -/
theorem claim_C5_witness :
    (costs_post costf1 ([] ++ trip0 :: [])).1 =
      [] ++ applyCost costf1 trip0 :: [] ∧
    (costs_post costf2 ([] ++ applyCost costf1 trip0 :: [])).1 =
      [] ++ applyCost costf2 (applyCost costf1 trip0) :: [] ∧
    (applyCost costf1 trip0).costs.gas = safe_float costf1.gas ∧
    (applyCost costf1 trip0).costs.food = safe_float costf1.food ∧
    (applyCost costf1 trip0).costs.tolls = safe_float costf1.tolls ∧
    (applyCost costf1 trip0).costs.tickets =
      trip0.costs.tickets ++ [mkCitation costf1] ∧
    (applyCost costf2 (applyCost costf1 trip0)).costs.gas =
      safe_float costf2.gas ∧
    (applyCost costf2 (applyCost costf1 trip0)).costs.food =
      safe_float costf2.food ∧
    (applyCost costf2 (applyCost costf1 trip0)).costs.tolls =
      safe_float costf2.tolls ∧
    (applyCost costf2 (applyCost costf1 trip0)).costs.tickets =
      trip0.costs.tickets ++ [mkCitation costf1, mkCitation costf2] ∧
    (applyCost costf2 (applyCost costf1 trip0)).costs.tickets.length =
      trip0.costs.tickets.length + 2 :=
  claim_C5 [] [] trip0 costf1 costf2 (by simp) rfl rfl (by decide) (by decide)

/-- Claim C1 counterexample: with the capability configured, the submission
form1 (start A, stop B, end C) against the capability dist1 (which resolves
A to B but not B to C) stores a trip whose distance_source is manual and
whose one-way miles are the manual value, but whose distance_legs is the
non-empty list holding the leg record of the leg that succeeded before the
failure — the claim says distance_legs must be empty. -/
theorem claim_C1_counterexample :
    (savedOf (mileage_post dist1 true (7 / 10) "t0" form1 [])).map
        (fun t => (t.distance_source, t.one_way_miles, t.distance_legs)) =
      some ("manual", 7, [{ from_ := "A", to_ := "B", miles := 5 }]) ∧
    ([{ from_ := "A", to_ := "B", miles := 5 }] : List Leg) ≠ [] := by
  have hfail :
      (runLegs dist1 ((waypoints form1).zip (waypoints form1).tail) 0
        []).2.2 = false := by decide
  have hlegs :
      (runLegs dist1 ((waypoints form1).zip (waypoints form1).tail) 0
        []).2.1 = [{ from_ := "A", to_ := "B", miles := 5 }] := by decide
  have hc := computedOf_fail dist1 form1 (by decide) (by decide) hfail
  have hpos : 0 < oneWayOf dist1 true form1 := by
    simp [oneWayOf_form1]
  constructor
  · rw [mileage_post_accept dist1 true (7 / 10) "t0" form1 [] (by decide)
      (by decide) hpos]
    have h1 : (buildTrip dist1 true (7 / 10) "t0" form1).distance_source =
        "manual" := by
      rw [buildTrip_source, hc]
      exact rfl
    have h2 : (buildTrip dist1 true (7 / 10) "t0" form1).one_way_miles =
        7 := by
      rw [buildTrip_one_way, oneWayOf_form1]
      norm_num [round2]
    have h3 : (buildTrip dist1 true (7 / 10) "t0" form1).distance_legs =
        [{ from_ := "A", to_ := "B", miles := 5 }] := by
      rw [buildTrip_legs, hc, hlegs]
    simp [savedOf, h1, h2, h3]
  · decide

/-- Claim C1 amended: when the capability is configured and some consecutive
waypoint pair fails to resolve, the stored trip has distance_source manual
and its one-way miles are the manual value plus the extra-miles adjustment,
but distance_legs holds the per-leg records accumulated before the failing
leg (partial leg data is persisted, not the empty sequence). -/
theorem claim_C1_amended (dist : String → String → Option ℚ) (rate : ℚ)
    (now : String) (f : MileageForm) (ledger : List Trip) (t : Trip)
    (hsave : (mileage_post dist true rate now f ledger).2 = Outcome.save t)
    (hfail :
      (runLegs dist ((waypoints f).zip (waypoints f).tail) 0 []).2.2 =
        false) :
    t.distance_source = "manual" ∧
    t.one_way_miles =
      round2 (safe_float f.manual_one_way_miles +
        safe_float f.manual_stop_miles) ∧
    t.distance_legs =
      (runLegs dist ((waypoints f).zip (waypoints f).tail) 0 []).2.1 := by
  obtain ⟨ht, -, hs, he, -⟩ := mileage_save_inv dist true rate now f ledger t
    hsave
  subst ht
  have hc := computedOf_fail dist f hs he hfail
  refine ⟨?_, ?_, ?_⟩
  · rw [buildTrip_source, hc]
    exact rfl
  · rw [buildTrip_one_way]
    unfold oneWayOf
    rw [hc]
    exact rfl
  · rw [buildTrip_legs, hc]

/-- Claim C1 amended witness: form1 against dist1. -/
theorem claim_C1_amended_witness :
    (buildTrip dist1 true (7 / 10) "t0" form1).distance_source = "manual" ∧
    (buildTrip dist1 true (7 / 10) "t0" form1).one_way_miles =
      round2 (safe_float form1.manual_one_way_miles +
        safe_float form1.manual_stop_miles) ∧
    (buildTrip dist1 true (7 / 10) "t0" form1).distance_legs =
      (runLegs dist1 ((waypoints form1).zip (waypoints form1).tail) 0
        []).2.1 :=
  claim_C1_amended dist1 (7 / 10) "t0" form1 []
    (buildTrip dist1 true (7 / 10) "t0" form1)
    (congrArg Prod.snd
      (mileage_post_accept dist1 true (7 / 10) "t0" form1 [] (by decide)
        (by decide)
        (by simp [oneWayOf_form1])))
    (by decide)

/-- Claim C3 counterexample: a fully resolved submission stores the literal
string openrouteservice in distance_source, which is neither of the two
enum tokens resolved and manual named by the claim. -/
theorem claim_C3_counterexample :
    (savedOf (mileage_post dist3 true (7 / 10) "t0" form3 [])).map
        Trip.distance_source = some "openrouteservice" ∧
    ("openrouteservice" : String) ≠ "resolved" ∧
    ("openrouteservice" : String) ≠ "manual" := by
  have hok :
      (runLegs dist3 ((waypoints form3).zip (waypoints form3).tail) 0
        []).2.2 = true := by decide
  have hc := computedOf_ok dist3 form3 (by decide) (by decide) hok
  have hpos : 0 < oneWayOf dist3 true form3 := by
    simp [oneWayOf_form3]
  refine ⟨?_, by decide, by decide⟩
  rw [mileage_post_accept dist3 true (7 / 10) "t0" form3 [] (by decide)
    (by decide) hpos]
  simp [savedOf, buildTrip_source, hc]

/-- Claim C3 amended: distance_source always takes one of the two literal
values openrouteservice and manual, and it is openrouteservice exactly when
the capability computed every leg (computed_one_way is present). -/
theorem claim_C3_amended (dist : String → String → Option ℚ) (orsKey : Bool)
    (rate : ℚ) (now : String) (f : MileageForm) (ledger : List Trip)
    (t : Trip)
    (hsave : (mileage_post dist orsKey rate now f ledger).2 = Outcome.save t) :
    (t.distance_source = "openrouteservice" ∨ t.distance_source = "manual") ∧
    (t.distance_source = "openrouteservice" ↔
      (computedOf dist orsKey f).1.isSome = true) := by
  obtain ⟨ht, -⟩ := mileage_save_inv dist orsKey rate now f ledger t hsave
  subst ht
  rw [buildTrip_source]
  by_cases h : (computedOf dist orsKey f).1.isSome = true
  · rw [if_pos h]
    exact ⟨Or.inl rfl, iff_of_true rfl h⟩
  · rw [if_neg h]
    exact ⟨Or.inr rfl, iff_of_false (by decide) h⟩

/-- Claim C3 amended witness: the fully resolved submission form3. -/
theorem claim_C3_amended_witness :
    ((buildTrip dist3 true (7 / 10) "t0" form3).distance_source =
        "openrouteservice" ∨
      (buildTrip dist3 true (7 / 10) "t0" form3).distance_source =
        "manual") ∧
    ((buildTrip dist3 true (7 / 10) "t0" form3).distance_source =
        "openrouteservice" ↔
      (computedOf dist3 true form3).1.isSome = true) :=
  claim_C3_amended dist3 true (7 / 10) "t0" form3 []
    (buildTrip dist3 true (7 / 10) "t0" form3)
    (congrArg Prod.snd
      (mileage_post_accept dist3 true (7 / 10) "t0" form3 [] (by decide)
        (by decide)
        (by simp [oneWayOf_form3])))

/-- Claim C7: manual one-way miles 10 with extra stop miles 1.5, one-way
trip, rate 0.70, capability resolving nothing: the stored trip has one-way
miles 11.5, total miles 11.5 and reimbursement 8.05. -/
theorem claim_C7 :
    (savedOf (mileage_post dist0 true (7 / 10) "t0" form7 [])).map
        (fun t => (t.one_way_miles, t.total_miles, t.reimbursement)) =
      some ((11.5 : ℚ), (11.5 : ℚ), (8.05 : ℚ)) := by
  have hfail :
      (runLegs dist0 ((waypoints form7).zip (waypoints form7).tail) 0
        []).2.2 = false := by decide
  have hpos : 0 < oneWayOf dist0 true form7 := by
    rw [oneWayOf_form7]
    norm_num
  rw [mileage_post_accept dist0 true (7 / 10) "t0" form7 [] (by decide)
    (by decide) hpos]
  have hne : ¬form7.trip_type = "roundtrip" := by decide
  have h1 : (buildTrip dist0 true (7 / 10) "t0" form7).one_way_miles =
      11.5 := by
    rw [buildTrip_one_way, oneWayOf_form7]
    norm_num [round2]
  have h2 : (buildTrip dist0 true (7 / 10) "t0" form7).total_miles =
      11.5 := by
    rw [buildTrip_total, if_neg hne, oneWayOf_form7]
    norm_num [round2]
  have h3 : (buildTrip dist0 true (7 / 10) "t0" form7).reimbursement =
      8.05 := by
    rw [buildTrip_reimb, if_neg hne, oneWayOf_form7]
    norm_num [round2]
  simp [savedOf, h1, h2, h3]

/-- Claim C10: the create operation reads only the five stop slots one to
five: the stops list has at most five entries, and two submissions agreeing
on those five slots (and on the start and end address) produce the same
stops list and the same routing waypoint list, whatever the other slots
hold. -/
theorem claim_C10 (f g : MileageForm)
    (hstops : ∀ i, 1 ≤ i → i ≤ 5 →
      f.stop_address i = g.stop_address i ∧
        f.stop_datetime i = g.stop_datetime i)
    (hstart : f.start_address = g.start_address)
    (hend : f.end_address = g.end_address) :
    (readStops f).length ≤ 5 ∧ readStops f = readStops g ∧
      waypoints f = waypoints g := by
  have hr : readStops f = readStops g := by
    unfold readStops
    refine List.filterMap_congr ?_
    intro i hi
    simp at hi
    obtain ⟨ha, hd⟩ := hstops i
      (by rcases hi with rfl | rfl | rfl | rfl | rfl <;> norm_num)
      (by rcases hi with rfl | rfl | rfl | rfl | rfl <;> norm_num)
    simp only [ha, hd]
  refine ⟨?_, hr, ?_⟩
  · unfold readStops
    exact le_trans (List.length_filterMap_le _ _) (by decide)
  · unfold waypoints
    rw [hr, hstart, hend]

/-- Claim C10 witness: the two submissions differ in their sixth stop slot
yet produce the same stops and waypoints. -/
theorem claim_C10_witness :
    form10a.stop_address 6 ≠ form10b.stop_address 6 ∧
    ((readStops form10a).length ≤ 5 ∧
      readStops form10a = readStops form10b ∧
      waypoints form10a = waypoints form10b) :=
  ⟨by decide,
    claim_C10 form10a form10b
      (fun i h1 h5 => by interval_cases i <;> exact ⟨rfl, rfl⟩) rfl rfl⟩

end MileageCalc
